import Mathlib

/-!
Shallow embedding of the mpetk remote-object / router middleware
(`src/mpetk/zro/device.py`, `src/src/zro/proxy.py`,
`src/src/mpetk/aibsmw/routerio/router.py`) in Lean 4, together with
theorems settling the specification claims about it.

Python objects served by a `RemoteObject` are modelled as finite
association maps from attribute names to values (`Obj`); `getattr` /
`setattr` / `hasattr` are the corresponding map operations, with
`getattr` failing on a missing name the way Python raises
`AttributeError`.  Callable attribute values are modelled by explicit
behaviours (return a value, raise `TypeError`, raise a generic
exception), which is all the dispatch layer ever observes of them.
-/

deriving instance DecidableEq for Except

namespace Mpetk

/-- Modelled from the spec: the structured error value of the error
taxonomy (section 7).  Its class definition lives in `zro/error.py`,
which is imported by `device.py` but is not among the provided source
files; `device.py` constructs it as `ZroError(self, name, code)` or
`ZroError(self, name, code, message)`, so it carries the failing
attribute/method name, a numeric code and an optional message.
Codes as used by `device.py`: 1 = no such attribute (get/set),
2 = no such attribute (run), 3 = not callable, 4 = call raised,
5 = call raised TypeError, 6/7 = handle unknown, 8 = handle not ready. -/
structure ZroError where
  name : String
  code : Nat
  msg : String
deriving DecidableEq, Repr

/-- The Python exceptions the embedded code can raise or observe. -/
inductive PyExn where
  | attributeError (msg : String)
  | typeError (msg : String)
  | valueError (msg : String)
  | keyError (msg : String)
  | runtimeError (msg : String)
  | zro (e : ZroError)
deriving DecidableEq, Repr

/-- Message text of an exception, as `str(e)` would give in Python. -/
def exnMsg : PyExn → String
  | .attributeError m => m
  | .typeError m => m
  | .valueError m => m
  | .keyError m => m
  | .runtimeError m => m
  | .zro e => e.name

/-- Python values as the dispatch layer observes them.  A callable is
one of `fnReturns r` (returns `r` when invoked), `fnRaisesType m`
(raises `TypeError m`) or `fnRaises m` (raises a generic exception):
that is everything `_run` / `_call_async` ever inspect of a callable.
`zroErr` and `exn` let error objects themselves be values, which the
source returns as results (`return error`, `return e`). -/
inductive PyVal where
  | str (s : String)
  | int (n : Int)
  | pyBool (b : Bool)
  | pyNone
  | zroErr (e : ZroError)
  | exn (e : PyExn)
  | fnReturns (r : PyVal)
  | fnRaisesType (msg : String)
  | fnRaises (msg : String)
deriving DecidableEq, Repr

/-- Python `callable(v)`. -/
def isCallable : PyVal → Bool
  | .fnReturns _ => true
  | .fnRaisesType _ => true
  | .fnRaises _ => true
  | _ => false

/-- Invoking a value: `v(*args, **kwargs)`.  The modelled behaviours do
not depend on the arguments, which is all the claims need. -/
def callVal (v : PyVal) (args : List PyVal)
    (kwargs : List (String × PyVal)) : Except PyExn PyVal :=
  match v, args, kwargs with
  | .fnReturns r, _, _ => .ok r
  | .fnRaisesType m, _, _ => .error (.typeError m)
  | .fnRaises m, _, _ => .error (.runtimeError m)
  | _, _, _ => .error (.typeError "object is not callable")

/-! ### Association-list primitives

Python dicts and object attribute tables are modelled as association
lists; `assocGet`/`assocSet`/`assocDel` are lookup, item assignment and
`del`. -/

/-- Dictionary lookup: first value stored under the key, if any. -/
def assocGet {α β : Type} [DecidableEq α] : List (α × β) → α → Option β
  | [], _ => Option.none
  | (k, v) :: rest, a => if k = a then some v else assocGet rest a

/-- Dictionary item assignment: replace the first binding of the key,
or append a fresh binding. -/
def assocSet {α β : Type} [DecidableEq α] : List (α × β) → α → β → List (α × β)
  | [], a, b => [(a, b)]
  | (k, v) :: rest, a, b =>
      if k = a then (a, b) :: rest else (k, v) :: assocSet rest a b

/-- Dictionary `del`: drop the first binding of the key. -/
def assocDel {α β : Type} [DecidableEq α] : List (α × β) → α → List (α × β)
  | [], _ => []
  | (k, v) :: rest, a => if k = a then rest else (k, v) :: assocDel rest a

/-- Keys of an association list. -/
def keysOf {α β : Type} (l : List (α × β)) : List α := l.map Prod.fst

/-! ### Target objects and the dispatch engine (`RemoteObject`) -/

/-- A served Python object: its attribute table. -/
abbrev Obj := List (String × PyVal)

/-- Python `getattr(obj, name)`: value of the attribute, or
`AttributeError` when the name is absent. -/
def pyGetattr (o : Obj) (name : String) : Except PyExn PyVal :=
  match assocGet o name with
  | some v => .ok v
  | Option.none => .error (.attributeError name)

/-- Python `setattr(obj, name, value)`: overwrite or create. -/
def pySetattr (o : Obj) (name : String) (value : PyVal) : Obj :=
  assocSet o name value

/-- Python `hasattr(obj, name)`. -/
def pyHasattr (o : Obj) (name : String) : Bool :=
  (assocGet o name).isSome

namespace RemoteObject

/-- `RemoteObject._set` (device.py): `getattr` first (so a missing
attribute is reported rather than created), then `setattr`, returning
the success sentinel `"0"`; `AttributeError` becomes `ZroError` code 1;
any other exception object is returned as the result. -/
def set (o : Obj) (name : String) (value : PyVal) : PyVal × Obj :=
  match pyGetattr o name with
  | .ok _ => (.str "0", pySetattr o name value)
  | .error (.attributeError _) => (.zroErr ⟨name, 1, ""⟩, o)
  | .error e => (.exn e, o)

/-- `RemoteObject._get` (device.py): the attribute value, or the
literal sentinel `"__callable__"` when the value is callable;
`AttributeError` becomes `ZroError` code 1. -/
def get (o : Obj) (name : String) : PyVal :=
  match pyGetattr o name with
  | .ok val => if isCallable val then .str "__callable__" else val
  | .error (.attributeError _) => .zroErr ⟨name, 1, ""⟩
  | .error e => .exn e

/-- `RemoteObject._run` (device.py): missing name gives `ZroError`
code 2, non-callable target code 3, a raised `TypeError` code 5, any
other raised exception code 4; otherwise the call's return value. -/
def run (o : Obj) (name : String) (args : List PyVal)
    (kwargs : List (String × PyVal)) : PyVal :=
  if pyHasattr o name then
    match pyGetattr o name with
    | .error _ => .zroErr ⟨name, 2, ""⟩
    | .ok toCall =>
        if isCallable toCall then
          match callVal toCall args kwargs with
          | .ok response => response
          | .error (.typeError m) => .zroErr ⟨name, 5, m⟩
          | .error e => .zroErr ⟨name, 4, exnMsg e⟩
        else .zroErr ⟨name, 3, ""⟩
  else .zroErr ⟨name, 2, ""⟩

end RemoteObject

/-- A decoded request dict, `{"command": ..., "args": ...}` with the
extra `callable` / `kwargs` keys for `run`; `other` is a well-formed
dict whose command is none of set/get/run. -/
inductive Request where
  | get (name : String)
  | set (name : String) (value : PyVal)
  | run (callable : String) (args : List PyVal) (kwargs : List (String × PyVal))
  | other (command : String)
deriving DecidableEq, Repr

/-- Reply sent when `__decode_request` fails: `_handle_request` builds a
`ZroError("Failed to decode request: ...")` and sends its string form. -/
def decodeFailureReply : PyVal := .str "Failed to decode request"

/-- `RemoteObject._handle_request` (device.py), dispatch part: one
decoded request (or a decode failure, `Option.none`) in, exactly one
reply out, together with the possibly-updated target object.  `run` of
`close` / `set_reply_ip` is special-cased: the reply `"0"` is sent
before the method executes (the method then shuts the socket down, so
the object state afterwards is not observable remotely).  An unknown
command becomes `ZroError` code 2.  The binary/JSON codec choice only
affects how the reply value is serialized, not which value is chosen,
and is not modelled. -/
def handleRequest (o : Obj) (req : Option Request) : PyVal × Obj :=
  match req with
  | Option.none => (decodeFailureReply, o)
  | some (.get name) => (RemoteObject.get o name, o)
  | some (.set name value) => RemoteObject.set o name value
  | some (.run c args kwargs) =>
      if c = "close" ∨ c = "set_reply_ip" then (.str "0", o)
      else (RemoteObject.run o c args kwargs, o)
  | some (.other cmd) => (.zroErr ⟨cmd, 2, ""⟩, o)

/-! ### Asynchronous call handles -/

/-- The async bookkeeping of a `RemoteObject`: `_async_results` (a dict
from handle to stored result), `_async_handle_list` (the handles issued
so far and not yet consumed) and `_async_handle_index` (the next handle
to issue). -/
structure AsyncState where
  results : List (Nat × PyVal)
  handleList : List Nat
  handleIndex : Nat
deriving DecidableEq, Repr

/-- `RemoteObject.call_async` (device.py): a missing name gives
`ZroError` code 2, a non-callable target code 3; otherwise the current
handle index is appended to the handle list, the call is scheduled on a
timer (its later completion is `completeAsync`), the index is bumped
and the handle is returned immediately. -/
def callAsync (o : Obj) (st : AsyncState) (name : String) : PyVal × AsyncState :=
  if pyHasattr o name then
    match pyGetattr o name with
    | .error _ => (.zroErr ⟨name, 2, ""⟩, st)
    | .ok toCall =>
        if isCallable toCall then
          (.int st.handleIndex,
           { st with handleList := st.handleList ++ [st.handleIndex],
                     handleIndex := st.handleIndex + 1 })
        else (.zroErr ⟨name, 3, ""⟩, st)
  else (.zroErr ⟨name, 2, ""⟩, st)

/-- `RemoteObject._call_async` (device.py), the timer callback, result
storage part: the call's return value is stored under the handle; if the
call raised, a `ZroError` code 4 is stored instead. -/
def completeAsync (st : AsyncState) (handle : Nat) (name : String)
    (outcome : Except PyExn PyVal) : AsyncState :=
  match outcome with
  | .ok v => { st with results := assocSet st.results handle v }
  | .error e =>
      { st with results := assocSet st.results handle (.zroErr ⟨name, 4, exnMsg e⟩) }

/-- `RemoteObject.async_result_waiting` (device.py): `true` when a
result is stored under the handle, `false` when the handle was issued
but no result is stored yet, and `ZroError` code 7 otherwise. -/
def asyncResultWaiting (st : AsyncState) (handle : Nat) : Except ZroError Bool :=
  if (assocGet st.results handle).isSome then .ok true
  else if handle ∈ st.handleList then .ok false
  else .error ⟨toString handle, 7, ""⟩

/-- `RemoteObject.get_async_result` (device.py): a `ZroError` raised by
`async_result_waiting` is re-raised; with a result waiting it is read
and, when `clear_data` is set, the handle is removed from the handle
list (`list.remove`, which raises `ValueError` on a missing element)
and the result entry is deleted; without a result waiting, a
still-issued handle raises code 8 and any other code 6. -/
def getAsyncResult (st : AsyncState) (handle : Nat) (clearData : Bool) :
    Except PyExn (PyVal × AsyncState) :=
  match asyncResultWaiting st handle with
  | .error e => .error (.zro e)
  | .ok resultWaiting =>
      if resultWaiting then
        match assocGet st.results handle with
        | some result =>
            if clearData then
              if handle ∈ st.handleList then
                .ok (result,
                     { st with results := assocDel st.results handle,
                               handleList := st.handleList.erase handle })
              else .error (.valueError (toString handle))
            else .ok (result, st)
        | Option.none => .error (.keyError (toString handle))
      else
        if handle ∈ st.handleList then .error (.zro ⟨toString handle, 8, ""⟩)
        else .error (.zro ⟨toString handle, 6, ""⟩)

/-! ### Introspection (`get_command_list`) -/

/-- Python `s[0] != "_"` on an attribute name (attribute names are
never empty, so the `IndexError` of `""[0]` cannot occur). -/
def isPublicName (s : String) : Bool :=
  match s.data with
  | [] => true
  | c :: _ => c ≠ '_'

/-- Python `list.remove`: drop the first occurrence, `ValueError` when
the element is absent. -/
def listRemove (l : List String) (x : String) : Except PyExn (List String) :=
  if x ∈ l then .ok (l.erase x) else .error (.valueError x)

/-- The `methods` accumulation loop of `get_command_list` (device.py):
the names in `dir(obj)` that do not start with `_` and whose attribute
value is callable.  (`dir()` sorts its output; ordering does not matter
to any claim, which are all about membership.) -/
def publicCallables (o : Obj) : List String :=
  (keysOf o).filter
    (fun s => isPublicName s && isCallable ((assocGet o s).getD .pyNone))

/-- `RemoteObject.get_command_list` (device.py): the public callable
attribute names of the bound target, with `run_forever`,
`set_whitelist` and `set_blacklist` then removed by `list.remove` — and
only those three; `close` is not removed. -/
def getCommandList (o : Obj) : Except PyExn (List String) := do
  let m1 ← listRemove (publicCallables o) "run_forever"
  let m2 ← listRemove m1 "set_whitelist"
  listRemove m2 "set_blacklist"

/-! ### Client-side proxy (`DeviceProxy.__getattr__`) -/

/-- What a proxy attribute read produces for the caller. -/
inductive ProxyAttr where
  | value (v : PyVal)
  | callForwarder (name : String)
  | raised (e : ZroError)
deriving DecidableEq, Repr

/-- `DeviceProxy.__getattr__` (proxy.py), reply-handling part: a
`ZroError` reply is raised; a reply in `('callable', "__callable__")`
yields the bound call-forwarder `self._call` for the name; any other
reply is returned as the attribute value. -/
def proxyGetattr (name : String) (response : PyVal) : ProxyAttr :=
  match response with
  | .zroErr e => .raised e
  | r =>
      if r = .str "callable" ∨ r = .str "__callable__" then .callForwarder name
      else .value r

/-! ### The router (`Router._poll`) -/

/-- One inbound ROUTER frame: `[client identity, message id, payload]`.
For `register_for_message` / `deregister_for_message` packets the
payload is the protobuf whose `message_id` field names the topic; the
model carries that topic directly as the payload. -/
structure RPacket where
  client : String
  messageId : String
  payload : String
deriving DecidableEq, Repr

/-- Router state: `registration` (a `defaultdict(list)` from topic to
registered client identities), the `clients` set and the bounded
`message_headers` diagnostic buffer. -/
structure RouterState where
  registration : List (String × List String)
  clients : List String
  messageHeaders : List (String × String)
  headerRetention : Nat
deriving DecidableEq, Repr

/-- `defaultdict(list)` lookup: the topic's list, defaulting to `[]`. -/
def regLookup (reg : List (String × List String)) (topic : String) : List String :=
  (assocGet reg topic).getD []

/-- Python `set.add` on a list model of a set. -/
def setAdd (s : List String) (x : String) : List String :=
  if x ∈ s then s else s ++ [x]

/-- `message_headers.append` followed by `pop(0)` when the retention
bound is exceeded. -/
def pushHeader (hs : List (String × String)) (x : String × String)
    (retention : Nat) : List (String × String) :=
  let hs := hs ++ [x]
  if hs.length > retention then hs.tail else hs

/-- `Router._poll` (router.py), one received packet.  An empty message
id is the fresh-connection handshake: the packet is echoed back and
nothing else happens.  Otherwise the client joins the `clients` set and
the header buffer; a `register_for_message` packet appends the client
to the topic's list — but guarded by membership in the list stored
under the literal key `register_for_message` (exactly as the source
reads `self.registration[message_id]`), and a `deregister_for_message`
packet removes the client from the list stored under the literal key
`deregister_for_message` (again `self.registration[message_id]`), not
from the topic's list; finally the packet is forwarded to every
identity registered for the wildcard topic `*` and then to every
identity registered for the message id itself, skipping the sender in
both passes.  Returns the new state and the sent frames in order. -/
def handlePacket (st : RouterState) (p : RPacket) :
    RouterState × List (String × String × String) :=
  if p.messageId = "" then
    (st, [(p.client, p.messageId, p.payload)])
  else
    let clients := setAdd st.clients p.client
    let headers := pushHeader st.messageHeaders (p.client, p.messageId) st.headerRetention
    let reg := st.registration
    let reg :=
      if p.messageId = "register_for_message" then
        if p.client ∈ regLookup reg "register_for_message" then reg
        else assocSet reg p.payload (regLookup reg p.payload ++ [p.client])
      else reg
    let reg :=
      if p.messageId = "deregister_for_message" then
        if p.client ∈ regLookup reg "deregister_for_message" then
          assocSet reg "deregister_for_message"
            ((regLookup reg "deregister_for_message").erase p.client)
        else reg
      else reg
    let wildcardPass := (regLookup reg "*").filter (fun c => c ≠ p.client)
    let topicPass := (regLookup reg p.messageId).filter (fun c => c ≠ p.client)
    (⟨reg, clients, headers, st.headerRetention⟩,
     (wildcardPass ++ topicPass).map (fun c => (c, p.messageId, p.payload)))

/-! ### Subscriber sockets (`BaseSubRepDevice.remove_subscription`) -/

/-- Python `ip in con_str`: substring test on the character lists. -/
def strContains (hay needle : String) : Bool :=
  decide (List.IsInfix needle.data hay.data)

/-- The loop of `BaseSubRepDevice.remove_subscription` (device.py):
iterate over the keys view of the `OrderedDict` of subscriptions,
closing and deleting every key containing `ip`.  Deleting while
iterating has CPython semantics: the first matching key is deleted;
if any keys remain to iterate afterwards, the next `next()` call
raises `RuntimeError` ("OrderedDict mutated during iteration"), while
a deletion of the final key lets the loop end normally.  Returns the
surviving connection strings and whether `RuntimeError` was raised. -/
def removeSubLoop (ip : String) : List String → List String × Bool
  | [] => ([], false)
  | c :: rest =>
      if strContains c ip then (rest, !rest.isEmpty)
      else
        let r := removeSubLoop ip rest
        (c :: r.1, r.2)

/-- `BaseSubRepDevice.remove_subscription(ip, port=None)` (device.py):
the body never mentions `port`; only the substring test against `ip`
selects what is removed. -/
def removeSubscription (subs : List String) (ip : String) (port : Option Nat) :
    List String × Bool :=
  removeSubLoop ip subs

/-- Well-formedness of the async bookkeeping, maintained by
`call_async` / `_call_async` / `get_async_result`: handles are issued
from a strictly increasing counter (so both lists have no duplicate
keys) and a result is only ever stored under an issued handle. -/
def AsyncWF (st : AsyncState) : Prop :=
  st.handleList.Nodup ∧ (keysOf st.results).Nodup ∧
    ∀ p ∈ st.results, p.1 ∈ st.handleList

instance (st : AsyncState) : Decidable (AsyncWF st) := by
  unfold AsyncWF; infer_instance

/-! ## Association-list lemmas -/

theorem assocGet_assocSet_self {α β : Type} [DecidableEq α]
    (l : List (α × β)) (a : α) (b : β) : assocGet (assocSet l a b) a = some b := by
  induction l with
  | nil => simp [assocSet, assocGet]
  | cons hd tl ih =>
      obtain ⟨k, v⟩ := hd
      by_cases h : k = a <;> simp [assocSet, assocGet, h, ih]

theorem assocGet_assocSet_ne {α β : Type} [DecidableEq α]
    (l : List (α × β)) (a c : α) (b : β) (h : c ≠ a) :
    assocGet (assocSet l a b) c = assocGet l c := by
  induction l with
  | nil => simp [assocSet, assocGet, Ne.symm h]
  | cons hd tl ih =>
      obtain ⟨k, v⟩ := hd
      by_cases hk : k = a
      · subst hk
        simp [assocSet, assocGet, Ne.symm h]
      · simp [assocSet, assocGet, hk, ih]

theorem isSome_assocGet_iff_mem_keysOf {α β : Type} [DecidableEq α]
    (l : List (α × β)) (a : α) : (assocGet l a).isSome ↔ a ∈ keysOf l := by
  induction l with
  | nil => simp [assocGet, keysOf]
  | cons hd tl ih =>
      obtain ⟨k, v⟩ := hd
      by_cases h : k = a
      · simp [assocGet, keysOf, h]
      · simp [assocGet, keysOf, h, ih]
        tauto

theorem keysOf_assocSet_of_mem {α β : Type} [DecidableEq α]
    (l : List (α × β)) (a : α) (b : β) (h : a ∈ keysOf l) :
    keysOf (assocSet l a b) = keysOf l := by
  induction l with
  | nil => simp [keysOf] at h
  | cons hd tl ih =>
      obtain ⟨k, v⟩ := hd
      by_cases hk : k = a
      · subst hk; simp [assocSet, keysOf]
      · have ha : a ∈ keysOf tl := by
          rcases List.mem_cons.mp h with h1 | h1
          · exact absurd h1.symm hk
          · exact h1
        simp [assocSet, keysOf, hk]
        exact ih ha

theorem mem_of_assocGet_eq_some {α β : Type} [DecidableEq α]
    {l : List (α × β)} {a : α} {b : β} (h : assocGet l a = some b) : (a, b) ∈ l := by
  induction l with
  | nil => simp [assocGet] at h
  | cons hd tl ih =>
      obtain ⟨k, v⟩ := hd
      by_cases hk : k = a
      · subst hk
        simp [assocGet] at h
        simp [h]
      · simp [assocGet, hk] at h
        simp [ih h]

theorem assocGet_assocDel_self {α β : Type} [DecidableEq α]
    (l : List (α × β)) (a : α) (h : (keysOf l).Nodup) :
    assocGet (assocDel l a) a = Option.none := by
  induction l with
  | nil => simp [assocDel, assocGet]
  | cons hd tl ih =>
      obtain ⟨k, v⟩ := hd
      simp [keysOf] at h
      by_cases hk : k = a
      · subst hk
        simp [assocDel]
        cases hv : assocGet tl k with
        | none => rfl
        | some b => exact absurd (mem_of_assocGet_eq_some hv) (h.1 b)
      · simp [assocDel, assocGet, hk]
        exact ih h.2

theorem mem_publicCallables (o : Obj) (x : String) :
    x ∈ publicCallables o ↔
      (isPublicName x = true ∧ ∃ v, assocGet o x = some v ∧ isCallable v = true) := by
  rw [publicCallables, List.mem_filter]
  constructor
  · rintro ⟨hk, hqx⟩
    obtain ⟨v, hv⟩ := Option.isSome_iff_exists.mp
      ((isSome_assocGet_iff_mem_keysOf o x).mpr hk)
    simp only [Bool.and_eq_true] at hqx
    exact ⟨hqx.1, v, hv, by simpa [hv] using hqx.2⟩
  · rintro ⟨hpub, v, hv, hc⟩
    refine ⟨(isSome_assocGet_iff_mem_keysOf o x).mp (by simp [hv]), ?_⟩
    simp [hpub, hv, hc]

theorem nodup_publicCallables (o : Obj) (hnd : (keysOf o).Nodup) :
    (publicCallables o).Nodup :=
  hnd.filter _

/-! ## Claim theorems -/

/-- C1, counterexample: the claim quantifies over every value `v`, but
for a callable `v` the round trip fails — `SET x=v` does return the
success sentinel `"0"`, yet the subsequent `GET x` returns the
`"__callable__"` sentinel instead of `v`. -/
theorem c1_counterexample :
    (RemoteObject.set [("x", PyVal.int 0)] "x" (PyVal.fnReturns PyVal.pyNone)).1
      = PyVal.str "0" ∧
    RemoteObject.get
        (RemoteObject.set [("x", PyVal.int 0)] "x" (PyVal.fnReturns PyVal.pyNone)).2 "x"
      ≠ PyVal.fnReturns PyVal.pyNone := by
  decide

/-- C1 (amended): for every target object with an attribute `x` and
every non-callable value `v`, dispatching `SET(x, v)` returns the
success sentinel `"0"` and a subsequent `GET(x)` on the updated object
returns `v`. -/
theorem c1_set_then_get_roundtrip (o : Obj) (name : String) (v w : PyVal)
    (hex : assocGet o name = some w) (hnc : isCallable v = false) :
    ∃ o1, RemoteObject.set o name v = (.str "0", o1) ∧
      RemoteObject.get o1 name = v := by
  refine ⟨pySetattr o name v, ?_, ?_⟩
  · simp [RemoteObject.set, pyGetattr, hex]
  · simp [RemoteObject.get, pyGetattr, pySetattr, assocGet_assocSet_self, hnc]

/-- C1 witness: the round trip at the concrete object `{x: 0}` with
`v = 7`. -/
theorem c1_set_then_get_roundtrip_witness :
    assocGet [("x", PyVal.int 0)] "x" = some (PyVal.int 0) ∧
    isCallable (PyVal.int 7) = false ∧
    ∃ o1, RemoteObject.set [("x", PyVal.int 0)] "x" (PyVal.int 7) = (.str "0", o1) ∧
      RemoteObject.get o1 "x" = PyVal.int 7 :=
  ⟨by decide, by decide,
   c1_set_then_get_roundtrip [("x", PyVal.int 0)] "x" (PyVal.int 7) (PyVal.int 0)
     (by decide) (by decide)⟩

/-- C2, counterexample: the dispatch applies no public/private filter.
At a target with the underscore-prefixed members `_secret` and `_m`,
`GET` reads `_secret`, `SET` overwrites it reporting success, and `RUN`
executes `_m` — no error is returned for any of the three. -/
theorem c2_counterexample :
    RemoteObject.get [("_secret", PyVal.int 42)] "_secret" = PyVal.int 42 ∧
    RemoteObject.set [("_secret", PyVal.int 42)] "_secret" (PyVal.int 7)
      = (PyVal.str "0", [("_secret", PyVal.int 7)]) ∧
    RemoteObject.run [("_m", PyVal.fnReturns (PyVal.int 9))] "_m" [] []
      = PyVal.int 9 := by
  decide

/-- C2 (amended): the server's GET/SET/RUN dispatch applies no
public/private filter at all — a member present on the target is read,
written and executed exactly as a public one would be even when its
name is underscore-prefixed; only absent names produce errors (and only
the introspection lists exclude underscore-prefixed names). -/
theorem c2_dispatch_ignores_underscore (o : Obj) (name : String) (v : PyVal)
    (hpriv : isPublicName name = false) (hv : assocGet o name = some v) :
    RemoteObject.get o name
      = (if isCallable v then PyVal.str "__callable__" else v) ∧
    (∀ w, RemoteObject.set o name w = (.str "0", pySetattr o name w)) ∧
    (∀ r args kwargs, v = PyVal.fnReturns r →
       RemoteObject.run o name args kwargs = r) := by
  refine ⟨?_, ?_, ?_⟩
  · simp [RemoteObject.get, pyGetattr, hv]
  · intro w; simp [RemoteObject.set, pyGetattr, hv]
  · intro r args kwargs hr
    subst hr
    simp [RemoteObject.run, pyHasattr, pyGetattr, hv, isCallable, callVal]

/-- C2 witness: the private member `_secret` of the concrete target
`{_secret: fnReturns 3}` is fully exposed. -/
theorem c2_dispatch_ignores_underscore_witness :
    isPublicName "_secret" = false ∧
    assocGet [("_secret", PyVal.fnReturns (PyVal.int 3))] "_secret"
      = some (PyVal.fnReturns (PyVal.int 3)) ∧
    (RemoteObject.get [("_secret", PyVal.fnReturns (PyVal.int 3))] "_secret"
       = (if isCallable (PyVal.fnReturns (PyVal.int 3)) then PyVal.str "__callable__"
          else PyVal.fnReturns (PyVal.int 3)) ∧
     (∀ w, RemoteObject.set [("_secret", PyVal.fnReturns (PyVal.int 3))] "_secret" w
        = (.str "0", pySetattr [("_secret", PyVal.fnReturns (PyVal.int 3))] "_secret" w)) ∧
     (∀ r args kwargs, PyVal.fnReturns (PyVal.int 3) = PyVal.fnReturns r →
        RemoteObject.run [("_secret", PyVal.fnReturns (PyVal.int 3))] "_secret" args kwargs
          = r)) :=
  ⟨by decide, by decide,
   c2_dispatch_ignores_underscore [("_secret", PyVal.fnReturns (PyVal.int 3))] "_secret"
     (PyVal.fnReturns (PyVal.int 3)) (by decide) (by decide)⟩

/-- C9: `_set` on a name that is not an existing attribute returns the
`NoSuchAttribute` error (`ZroError` code 1) and leaves the target
object completely unchanged — `SET` never creates an attribute; on an
existing attribute it reports `"0"`, stores the new value under the
name, changes no other attribute and leaves the attribute-name list
unchanged. -/
theorem c9_set_frame (o : Obj) (name : String) (v : PyVal) :
    (assocGet o name = Option.none →
       RemoteObject.set o name v = (.zroErr ⟨name, 1, ""⟩, o)) ∧
    (∀ w, assocGet o name = some w →
       (RemoteObject.set o name v).1 = .str "0" ∧
       assocGet (RemoteObject.set o name v).2 name = some v ∧
       (∀ m, m ≠ name → assocGet (RemoteObject.set o name v).2 m = assocGet o m) ∧
       keysOf (RemoteObject.set o name v).2 = keysOf o) := by
  constructor
  · intro h
    simp [RemoteObject.set, pyGetattr, h]
  · intro w hw
    have hs : RemoteObject.set o name v = (.str "0", pySetattr o name v) := by
      simp [RemoteObject.set, pyGetattr, hw]
    refine ⟨by simp [hs], by simp [hs, pySetattr, assocGet_assocSet_self], ?_, ?_⟩
    · intro m hm
      simp [hs, pySetattr, assocGet_assocSet_ne _ _ _ _ hm]
    · have hmem : name ∈ keysOf o :=
        (isSome_assocGet_iff_mem_keysOf o name).mp (by simp [hw])
      simp [hs, pySetattr, keysOf_assocSet_of_mem _ _ _ hmem]

/-- C9 witness: at the concrete target `{x: 0}`, `SET y=1` errors and
changes nothing, and `SET x=1` changes only `x`. -/
theorem c9_set_frame_witness :
    (RemoteObject.set [("x", PyVal.int 0)] "y" (PyVal.int 1)
       = (.zroErr ⟨"y", 1, ""⟩, [("x", PyVal.int 0)])) ∧
    ((RemoteObject.set [("x", PyVal.int 0)] "x" (PyVal.int 1)).1 = .str "0" ∧
     assocGet (RemoteObject.set [("x", PyVal.int 0)] "x" (PyVal.int 1)).2 "x"
       = some (PyVal.int 1) ∧
     (∀ m, m ≠ "x" →
        assocGet (RemoteObject.set [("x", PyVal.int 0)] "x" (PyVal.int 1)).2 m
          = assocGet [("x", PyVal.int 0)] m) ∧
     keysOf (RemoteObject.set [("x", PyVal.int 0)] "x" (PyVal.int 1)).2
       = keysOf [("x", PyVal.int 0)]) :=
  ⟨(c9_set_frame [("x", PyVal.int 0)] "y" (PyVal.int 1)).1 (by decide),
   (c9_set_frame [("x", PyVal.int 0)] "x" (PyVal.int 1)).2 (PyVal.int 0) (by decide)⟩

/-- C3: `_run` turns every failure into a structured `ZroError` result
instead of raising — an unknown name gives code 2, a non-callable
target code 3, a raised generic exception code 4 and a raised
`TypeError` code 5 — and the request handler sends the dispatch result
(error value included) as the reply while leaving the served object
unchanged, so subsequent requests are served against the same state.
(`_run` is a total Lean function, so it never raises by
construction.) -/
theorem c3_run_failures_become_errors (o : Obj) (name : String)
    (args : List PyVal) (kwargs : List (String × PyVal)) :
    (assocGet o name = Option.none →
       RemoteObject.run o name args kwargs = .zroErr ⟨name, 2, ""⟩) ∧
    (∀ v, assocGet o name = some v → isCallable v = false →
       RemoteObject.run o name args kwargs = .zroErr ⟨name, 3, ""⟩) ∧
    (∀ m, assocGet o name = some (.fnRaises m) →
       RemoteObject.run o name args kwargs = .zroErr ⟨name, 4, m⟩) ∧
    (∀ m, assocGet o name = some (.fnRaisesType m) →
       RemoteObject.run o name args kwargs = .zroErr ⟨name, 5, m⟩) ∧
    (¬(name = "close" ∨ name = "set_reply_ip") →
       handleRequest o (some (.run name args kwargs))
         = (RemoteObject.run o name args kwargs, o)) := by
  refine ⟨?_, ?_, ?_, ?_, ?_⟩
  · intro h
    simp [RemoteObject.run, pyHasattr, pyGetattr, h]
  · intro v hv hnc
    simp [RemoteObject.run, pyHasattr, pyGetattr, hv, hnc]
  · intro m hm
    simp [RemoteObject.run, pyHasattr, pyGetattr, hm, isCallable, callVal, exnMsg]
  · intro m hm
    simp [RemoteObject.run, pyHasattr, pyGetattr, hm, isCallable, callVal]
  · intro hn
    simp [handleRequest, hn]

/-- C3 witness: at the concrete target `{boom: fnRaises "fail"}`, a
`RUN` of the raising method, of a missing method and of the request
handler around them. -/
theorem c3_run_failures_become_errors_witness :
    (RemoteObject.run [("boom", PyVal.fnRaises "fail")] "nope" [] []
       = .zroErr ⟨"nope", 2, ""⟩) ∧
    (RemoteObject.run [("boom", PyVal.fnRaises "fail")] "boom" [] []
       = .zroErr ⟨"boom", 4, "fail"⟩) ∧
    (handleRequest [("boom", PyVal.fnRaises "fail")] (some (.run "boom" [] []))
       = (RemoteObject.run [("boom", PyVal.fnRaises "fail")] "boom" [] [],
          [("boom", PyVal.fnRaises "fail")])) :=
  ⟨(c3_run_failures_become_errors [("boom", PyVal.fnRaises "fail")] "nope" [] []).1
     (by decide),
   (c3_run_failures_become_errors [("boom", PyVal.fnRaises "fail")] "boom" [] []).2.2.1
     "fail" (by decide),
   (c3_run_failures_become_errors [("boom", PyVal.fnRaises "fail")] "boom" [] []).2.2.2.2
     (by decide)⟩

/-- C7, counterexample: the sentinel `_get` actually returns for a
callable attribute is the literal `"__callable__"`, not the literal
`"callable"` the claim names. -/
theorem c7_counterexample :
    RemoteObject.get [("m", PyVal.fnReturns PyVal.pyNone)] "m"
      ≠ PyVal.str "callable" ∧
    RemoteObject.get [("m", PyVal.fnReturns PyVal.pyNone)] "m"
      = PyVal.str "__callable__" := by
  decide

/-- C7 (amended): for an attribute present on the target, `GET` returns
its value when it is not callable and the literal sentinel
`"__callable__"` when it is callable; a proxy receiving that sentinel
(it accepts either `"callable"` or `"__callable__"`) returns a bound
call-forwarder instead of a value. -/
theorem c7_callable_sentinel (o : Obj) (name : String) (v : PyVal)
    (hv : assocGet o name = some v) :
    (isCallable v = false → RemoteObject.get o name = v) ∧
    (isCallable v = true →
       RemoteObject.get o name = PyVal.str "__callable__" ∧
       proxyGetattr name (RemoteObject.get o name)
         = ProxyAttr.callForwarder name) := by
  constructor
  · intro hnc
    simp [RemoteObject.get, pyGetattr, hv, hnc]
  · intro hc
    have hg : RemoteObject.get o name = PyVal.str "__callable__" := by
      simp [RemoteObject.get, pyGetattr, hv, hc]
    refine ⟨hg, ?_⟩
    rw [hg]
    simp [proxyGetattr]

/-- C7 witness: the concrete target `{m: fnReturns none, a: 5}`. -/
theorem c7_callable_sentinel_witness :
    (RemoteObject.get [("m", PyVal.fnReturns PyVal.pyNone), ("a", PyVal.int 5)] "a"
       = PyVal.int 5) ∧
    (RemoteObject.get [("m", PyVal.fnReturns PyVal.pyNone), ("a", PyVal.int 5)] "m"
       = PyVal.str "__callable__" ∧
     proxyGetattr "m"
         (RemoteObject.get [("m", PyVal.fnReturns PyVal.pyNone), ("a", PyVal.int 5)] "m")
       = ProxyAttr.callForwarder "m") :=
  ⟨(c7_callable_sentinel [("m", PyVal.fnReturns PyVal.pyNone), ("a", PyVal.int 5)] "a"
      (PyVal.int 5) (by decide)).1 (by decide),
   (c7_callable_sentinel [("m", PyVal.fnReturns PyVal.pyNone), ("a", PyVal.int 5)] "m"
      (PyVal.fnReturns PyVal.pyNone) (by decide)).2 (by decide)⟩

/-- C4: in any well-formed async state, `get_async_result` on a handle
that is neither issued nor stored fails with the handle-unknown error
(`ZroError` code 7); on an issued handle whose call has not completed
it fails with the still-pending error (code 8); and on a stored result
with `clear_data = True` it returns the stored value while evicting the
handle, so a second read of the same handle fails with the
handle-unknown error. -/
theorem c4_async_result_lifecycle (st : AsyncState) (h : Nat) (hwf : AsyncWF st) :
    (h ∉ st.handleList →
       getAsyncResult st h true = .error (.zro ⟨toString h, 7, ""⟩)) ∧
    (h ∈ st.handleList → assocGet st.results h = Option.none →
       getAsyncResult st h true = .error (.zro ⟨toString h, 8, ""⟩)) ∧
    (∀ v, assocGet st.results h = some v →
       getAsyncResult st h true
         = .ok (v, ⟨assocDel st.results h, st.handleList.erase h, st.handleIndex⟩) ∧
       getAsyncResult ⟨assocDel st.results h, st.handleList.erase h, st.handleIndex⟩ h true
         = .error (.zro ⟨toString h, 7, ""⟩)) := by
  obtain ⟨hnd, hknd, hsub⟩ := hwf
  refine ⟨?_, ?_, ?_⟩
  · intro hmem
    have hnone : assocGet st.results h = Option.none := by
      cases hv : assocGet st.results h with
      | none => rfl
      | some b => exact absurd (hsub _ (mem_of_assocGet_eq_some hv)) hmem
    simp [getAsyncResult, asyncResultWaiting, hnone, hmem]
  · intro hmem hnone
    simp [getAsyncResult, asyncResultWaiting, hnone, hmem]
  · intro v hv
    have hmem : h ∈ st.handleList := hsub _ (mem_of_assocGet_eq_some hv)
    constructor
    · simp [getAsyncResult, asyncResultWaiting, hv, hmem]
    · have hgone : assocGet (assocDel st.results h) h = Option.none :=
        assocGet_assocDel_self st.results h hknd
      have hout : h ∉ st.handleList.erase h := by
        intro hin
        exact absurd ((List.Nodup.mem_erase_iff hnd).mp hin).1 (by simp)
      simp [getAsyncResult, asyncResultWaiting, hgone, hout]

/-- C4 witness: the state reached after issuing handle 0 and completing
its call with result 5 — the read returns 5 and evicts, the second read
fails with code 7. -/
theorem c4_async_result_lifecycle_witness :
    getAsyncResult ⟨[(0, PyVal.int 5)], [0], 1⟩ 0 true
      = .ok (PyVal.int 5, ⟨[], [], 1⟩) ∧
    getAsyncResult (⟨[], [], 1⟩ : AsyncState) 0 true
      = .error (.zro ⟨"0", 7, ""⟩) :=
  (c4_async_result_lifecycle ⟨[(0, PyVal.int 5)], [0], 1⟩ 0
      (by decide)).2.2 (PyVal.int 5) (by decide)

/-- C5: a non-handshake inbound message that is not a registration
command leaves the registration table unchanged and is forwarded, with
its own message id and payload, to exactly the identities registered
for the wildcard topic or for the message's topic other than the
sender; in particular it is never echoed back to the sender. -/
theorem c5_router_fanout (st : RouterState) (p : RPacket)
    (hns : p.messageId ≠ "")
    (hreg : p.messageId ≠ "register_for_message")
    (hder : p.messageId ≠ "deregister_for_message") :
    (handlePacket st p).1.registration = st.registration ∧
    (∀ fr ∈ (handlePacket st p).2,
       fr.1 ≠ p.client ∧ fr.2.1 = p.messageId ∧ fr.2.2 = p.payload) ∧
    (∀ c, (∃ fr ∈ (handlePacket st p).2, fr.1 = c) ↔
       (c ≠ p.client ∧
        (c ∈ regLookup st.registration "*" ∨
         c ∈ regLookup st.registration p.messageId))) := by
  have hp : handlePacket st p
      = (⟨st.registration, setAdd st.clients p.client,
          pushHeader st.messageHeaders (p.client, p.messageId) st.headerRetention,
          st.headerRetention⟩,
         (((regLookup st.registration "*").filter (fun c => c ≠ p.client)
             ++ (regLookup st.registration p.messageId).filter (fun c => c ≠ p.client)).map
            (fun c => (c, p.messageId, p.payload)))) := by
    simp [handlePacket, hns, hreg, hder]
  refine ⟨by simp [hp], ?_, ?_⟩
  · intro fr hfr
    rw [hp] at hfr
    simp only [List.mem_map, List.mem_append, List.mem_filter] at hfr
    obtain ⟨c, hc, rfl⟩ := hfr
    rcases hc with ⟨_, hne⟩ | ⟨_, hne⟩ <;>
      exact ⟨by simpa using hne, rfl, rfl⟩
  · intro c
    rw [hp]
    simp only [List.mem_map, List.mem_append, List.mem_filter]
    constructor
    · rintro ⟨fr, ⟨d, hd, rfl⟩, rfl⟩
      rcases hd with ⟨hm, hne⟩ | ⟨hm, hne⟩
      · exact ⟨by simpa using hne, Or.inl hm⟩
      · exact ⟨by simpa using hne, Or.inr hm⟩
    · rintro ⟨hne, hm | hm⟩
      · exact ⟨(c, p.messageId, p.payload), ⟨c, Or.inl ⟨hm, by simpa using hne⟩, rfl⟩, rfl⟩
      · exact ⟨(c, p.messageId, p.payload), ⟨c, Or.inr ⟨hm, by simpa using hne⟩, rfl⟩, rfl⟩

/-- C5 witness: clients A and B registered for topic T, client C for
the wildcard; a message on T from client D reaches A, B and C and not
D. -/
theorem c5_router_fanout_witness :
    (handlePacket ⟨[("T", ["A", "B"]), ("*", ["C"])], [], [], 100⟩
         ⟨"D", "T", "hello"⟩).1.registration = [("T", ["A", "B"]), ("*", ["C"])] ∧
    (∀ fr ∈ (handlePacket ⟨[("T", ["A", "B"]), ("*", ["C"])], [], [], 100⟩
         ⟨"D", "T", "hello"⟩).2,
       fr.1 ≠ "D" ∧ fr.2.1 = "T" ∧ fr.2.2 = "hello") ∧
    (∀ c, (∃ fr ∈ (handlePacket ⟨[("T", ["A", "B"]), ("*", ["C"])], [], [], 100⟩
         ⟨"D", "T", "hello"⟩).2, fr.1 = c) ↔
       (c ≠ "D" ∧
        (c ∈ regLookup [("T", ["A", "B"]), ("*", ["C"])] "*" ∨
         c ∈ regLookup [("T", ["A", "B"]), ("*", ["C"])] "T"))) :=
  c5_router_fanout ⟨[("T", ["A", "B"]), ("*", ["C"])], [], [], 100⟩
    ⟨"D", "T", "hello"⟩ (by decide) (by decide) (by decide)

/-- C6, evaluation at the failing inputs: with client A already the
sole registrant of topic T, a second `register_for_message(T)` from A
appends a duplicate (the guard consults the list stored under the
literal key `register_for_message`, which is empty), and a
`deregister_for_message(T)` from A leaves A registered for T (the
handler removes from the list stored under the literal key
`deregister_for_message`, never from the topic's list). -/
theorem c6_registration_bug_eval :
    (handlePacket ⟨[("T", ["A"])], [], [], 100⟩
        ⟨"A", "register_for_message", "T"⟩).1.registration = [("T", ["A", "A"])] ∧
    (handlePacket ⟨[("T", ["A"])], [], [], 100⟩
        ⟨"A", "deregister_for_message", "T"⟩).1.registration = [("T", ["A"])] := by
  decide

/-- C8, counterexample: on a target with the base `RemoteObject`
management surface, `get_command_list()` keeps `close` (the fixed
deny-list is `run_forever` / `set_whitelist` / `set_blacklist`, not
`close` and the access-control setters), and both `close` and the
deny-listed `set_whitelist` are still invocable through a remote `RUN`
request. -/
theorem c8_counterexample :
    getCommandList
        [("close", PyVal.fnReturns PyVal.pyNone),
         ("run_forever", PyVal.fnReturns PyVal.pyNone),
         ("set_whitelist", PyVal.fnReturns PyVal.pyNone),
         ("set_blacklist", PyVal.fnReturns PyVal.pyNone),
         ("echo", PyVal.fnReturns (PyVal.int 1))]
      = .ok ["close", "echo"] ∧
    (handleRequest
        [("close", PyVal.fnReturns PyVal.pyNone),
         ("run_forever", PyVal.fnReturns PyVal.pyNone),
         ("set_whitelist", PyVal.fnReturns PyVal.pyNone),
         ("set_blacklist", PyVal.fnReturns PyVal.pyNone),
         ("echo", PyVal.fnReturns (PyVal.int 1))]
        (some (.run "close" [] []))).1 = PyVal.str "0" ∧
    (handleRequest
        [("close", PyVal.fnReturns PyVal.pyNone),
         ("run_forever", PyVal.fnReturns PyVal.pyNone),
         ("set_whitelist", PyVal.fnReturns PyVal.pyNone),
         ("set_blacklist", PyVal.fnReturns PyVal.pyNone),
         ("echo", PyVal.fnReturns (PyVal.int 1))]
        (some (.run "set_whitelist" [PyVal.str "10.0.0.1"] []))).1 = PyVal.pyNone := by
  decide

/-- C8 (amended): `get_command_list()` returns exactly the public
callable members of the bound target minus the fixed deny-list
`{run_forever, set_whitelist, set_blacklist}`; `close` is not in that
deny-list, and the deny-list affects introspection only — a deny-listed
access-control setter is still executed by a remote `RUN` request, and
`RUN close` is answered with the success sentinel. -/
theorem c8_command_list_denylist (o : Obj) (hnd : (keysOf o).Nodup)
    (h1 : ∃ v, assocGet o "run_forever" = some v ∧ isCallable v = true)
    (h2 : ∃ v, assocGet o "set_whitelist" = some v ∧ isCallable v = true)
    (h3 : ∃ v, assocGet o "set_blacklist" = some v ∧ isCallable v = true) :
    ∃ cmds, getCommandList o = .ok cmds ∧
      (∀ x, x ∈ cmds ↔
        (isPublicName x = true ∧
         (∃ v, assocGet o x = some v ∧ isCallable v = true) ∧
         x ∉ (["run_forever", "set_whitelist", "set_blacklist"] : List String))) ∧
      (∀ r args kwargs, assocGet o "set_whitelist" = some (PyVal.fnReturns r) →
         handleRequest o (some (.run "set_whitelist" args kwargs)) = (r, o)) ∧
      (∀ args kwargs,
         (handleRequest o (some (.run "close" args kwargs))).1 = PyVal.str "0") := by
  obtain ⟨v1, hv1, hc1⟩ := h1
  obtain ⟨v2, hv2, hc2⟩ := h2
  obtain ⟨v3, hv3, hc3⟩ := h3
  have hndm : (publicCallables o).Nodup := nodup_publicCallables o hnd
  have hm1 : "run_forever" ∈ publicCallables o :=
    (mem_publicCallables o _).mpr ⟨by decide, v1, hv1, hc1⟩
  have hm2 : "set_whitelist" ∈ (publicCallables o).erase "run_forever" :=
    (List.Nodup.mem_erase_iff hndm).mpr
      ⟨by decide, (mem_publicCallables o _).mpr ⟨by decide, v2, hv2, hc2⟩⟩
  have hnd1 : ((publicCallables o).erase "run_forever").Nodup := hndm.erase _
  have hm3 : "set_blacklist"
      ∈ ((publicCallables o).erase "run_forever").erase "set_whitelist" :=
    (List.Nodup.mem_erase_iff hnd1).mpr
      ⟨by decide, (List.Nodup.mem_erase_iff hndm).mpr
        ⟨by decide, (mem_publicCallables o _).mpr ⟨by decide, v3, hv3, hc3⟩⟩⟩
  have hnd2 : (((publicCallables o).erase "run_forever").erase "set_whitelist").Nodup :=
    hnd1.erase _
  refine ⟨(((publicCallables o).erase "run_forever").erase "set_whitelist").erase
      "set_blacklist", ?_, ?_, ?_, ?_⟩
  · simp [getCommandList, listRemove, hm1, hm2, hm3, Bind.bind, Except.bind]
  · intro x
    rw [List.Nodup.mem_erase_iff hnd2, List.Nodup.mem_erase_iff hnd1,
        List.Nodup.mem_erase_iff hndm, mem_publicCallables]
    constructor
    · rintro ⟨hb, hw, hr, hpub, hv⟩
      refine ⟨hpub, hv, ?_⟩
      simp [hb, hw, hr]
    · rintro ⟨hpub, hv, hnot⟩
      simp only [List.mem_cons, List.not_mem_nil, or_false] at hnot
      push_neg at hnot
      exact ⟨hnot.2.2, hnot.2.1, hnot.1, hpub, hv⟩
  · intro r args kwargs hsw
    simp [handleRequest, RemoteObject.run, pyHasattr, pyGetattr, hsw, isCallable, callVal]
  · intro args kwargs
    simp [handleRequest]

/-- C8 witness: the concrete base-surface target with an extra public
method `echo`, a public attribute `a` and a private method `_p`. -/
theorem c8_command_list_denylist_witness :
    ∃ cmds, getCommandList
        [("close", PyVal.fnReturns PyVal.pyNone),
         ("run_forever", PyVal.fnReturns PyVal.pyNone),
         ("set_whitelist", PyVal.fnReturns (PyVal.int 3)),
         ("set_blacklist", PyVal.fnReturns PyVal.pyNone),
         ("echo", PyVal.fnReturns (PyVal.int 1)),
         ("a", PyVal.int 0),
         ("_p", PyVal.fnReturns PyVal.pyNone)]
      = .ok cmds ∧
      (∀ x, x ∈ cmds ↔
        (isPublicName x = true ∧
         (∃ v, assocGet
             [("close", PyVal.fnReturns PyVal.pyNone),
              ("run_forever", PyVal.fnReturns PyVal.pyNone),
              ("set_whitelist", PyVal.fnReturns (PyVal.int 3)),
              ("set_blacklist", PyVal.fnReturns PyVal.pyNone),
              ("echo", PyVal.fnReturns (PyVal.int 1)),
              ("a", PyVal.int 0),
              ("_p", PyVal.fnReturns PyVal.pyNone)] x = some v ∧ isCallable v = true) ∧
         x ∉ (["run_forever", "set_whitelist", "set_blacklist"] : List String))) ∧
      (∀ r args kwargs, assocGet
           [("close", PyVal.fnReturns PyVal.pyNone),
            ("run_forever", PyVal.fnReturns PyVal.pyNone),
            ("set_whitelist", PyVal.fnReturns (PyVal.int 3)),
            ("set_blacklist", PyVal.fnReturns PyVal.pyNone),
            ("echo", PyVal.fnReturns (PyVal.int 1)),
            ("a", PyVal.int 0),
            ("_p", PyVal.fnReturns PyVal.pyNone)] "set_whitelist"
             = some (PyVal.fnReturns r) →
         handleRequest
           [("close", PyVal.fnReturns PyVal.pyNone),
            ("run_forever", PyVal.fnReturns PyVal.pyNone),
            ("set_whitelist", PyVal.fnReturns (PyVal.int 3)),
            ("set_blacklist", PyVal.fnReturns PyVal.pyNone),
            ("echo", PyVal.fnReturns (PyVal.int 1)),
            ("a", PyVal.int 0),
            ("_p", PyVal.fnReturns PyVal.pyNone)] (some (.run "set_whitelist" args kwargs))
           = (r,
              [("close", PyVal.fnReturns PyVal.pyNone),
               ("run_forever", PyVal.fnReturns PyVal.pyNone),
               ("set_whitelist", PyVal.fnReturns (PyVal.int 3)),
               ("set_blacklist", PyVal.fnReturns PyVal.pyNone),
               ("echo", PyVal.fnReturns (PyVal.int 1)),
               ("a", PyVal.int 0),
               ("_p", PyVal.fnReturns PyVal.pyNone)])) ∧
      (∀ args kwargs,
         (handleRequest
             [("close", PyVal.fnReturns PyVal.pyNone),
              ("run_forever", PyVal.fnReturns PyVal.pyNone),
              ("set_whitelist", PyVal.fnReturns (PyVal.int 3)),
              ("set_blacklist", PyVal.fnReturns PyVal.pyNone),
              ("echo", PyVal.fnReturns (PyVal.int 1)),
              ("a", PyVal.int 0),
              ("_p", PyVal.fnReturns PyVal.pyNone)] (some (.run "close" args kwargs))).1
           = PyVal.str "0") :=
  c8_command_list_denylist
    [("close", PyVal.fnReturns PyVal.pyNone),
     ("run_forever", PyVal.fnReturns PyVal.pyNone),
     ("set_whitelist", PyVal.fnReturns (PyVal.int 3)),
     ("set_blacklist", PyVal.fnReturns PyVal.pyNone),
     ("echo", PyVal.fnReturns (PyVal.int 1)),
     ("a", PyVal.int 0),
     ("_p", PyVal.fnReturns PyVal.pyNone)]
    (by decide)
    ⟨PyVal.fnReturns PyVal.pyNone, by decide, by decide⟩
    ⟨PyVal.fnReturns (PyVal.int 3), by decide, by decide⟩
    ⟨PyVal.fnReturns PyVal.pyNone, by decide, by decide⟩

/-- C10: `remove_subscription` ignores its `port` argument entirely —
two calls differing only in the port produce the identical outcome
(surviving subscriptions and raised-or-not alike) — and it changes the
subscription set exactly when `ip` occurs as a substring of some stored
connection string. -/
theorem c10_port_noninterference (subs : List String) (ip : String)
    (port1 port2 : Option Nat) :
    removeSubscription subs ip port1 = removeSubscription subs ip port2 ∧
    ((removeSubscription subs ip port1).1 = subs ↔
       ∀ c ∈ subs, strContains c ip = false) := by
  refine ⟨rfl, ?_⟩
  unfold removeSubscription
  induction subs with
  | nil => simp [removeSubLoop]
  | cons c rest ih =>
      by_cases hc : strContains c ip = true
      · constructor
        · intro hEq
          have hstep : removeSubLoop ip (c :: rest) = (rest, !rest.isEmpty) := by
            simp [removeSubLoop, hc]
          rw [hstep] at hEq
          exact absurd hEq.symm (List.cons_ne_self c rest)
        · intro hAll
          exact absurd (hAll c (by simp)) (by simp [hc])
      · have hstep : removeSubLoop ip (c :: rest)
            = (c :: (removeSubLoop ip rest).1, (removeSubLoop ip rest).2) := by
          simp [removeSubLoop, hc]
        constructor
        · intro hEq
          rw [hstep] at hEq
          have hTail := (List.cons.inj hEq).2
          intro x hx
          rcases List.mem_cons.mp hx with rfl | hx
          · simpa using hc
          · exact (ih.mp hTail) x hx
        · intro hAll
          rw [hstep]
          show c :: (removeSubLoop ip rest).1 = c :: rest
          rw [ih.mpr (fun x hx => hAll x (List.mem_cons.mpr (Or.inr hx)))]

end Mpetk
